import Mathlib

/-!
# Verification of the teeproxy core (src/teeproxy.go)

A shallow embedding of the teeing/connection-lifecycle machinery of
teeproxy: the `Tee` duplex-stream wrapper (fan-out writes, reads from A
only, close/drain/linger protocol), the connector with its dial timeouts,
the per-connection handler, and the startup configuration defaults.

Go `io.ReadWriteCloser` values are modelled as deterministic oracles with
an explicit state type: each operation consumes the current state and
yields the new state together with the operation's result.  Bytes are
naturals, Go `error` values are `Option String` (`none` = `nil`),
Go `time.Duration` values are naturals counting nanoseconds, and a Go
runtime panic is the `.error` branch of an `Except`.  Concurrency is
resolved into explicit sequencing: a goroutine spawned by an operation is
recorded as a trace of the events it performs, in program order.
-/

namespace Teeproxy

/-- Bytes, as in Go's `byte` (values 0..255 are the ones that occur). -/
abbrev Byte := Nat

/-- Go `error`: `none` is `nil`, `some s` an error with message `s`. -/
abbrev Err := Option String

/-- Model of an `io.ReadWriteCloser`: a deterministic oracle over an
internal state `σ`.  `write` takes the bytes and returns the count/error
pair; `read` takes the capacity of the destination buffer and returns the
bytes it produced (the model truncates them to the capacity at the call
site) and the error; `close` returns the close error. -/
structure RWC (σ : Type) where
  write : σ → List Byte → σ × Nat × Err
  read : σ → Nat → σ × List Byte × Err
  close : σ → σ × Err

/-- The capacity of the global scratch buffer (src line 31): `64*1024`. -/
def garbageCap : Nat := 64 * 1024

/-- The global scratch buffer (src line 31):
`var garbage = make([]byte, 64*1024)` — all best-effort reads from `b`
land here. -/
def garbage : List Byte := List.replicate garbageCap 0

/-- `type Tee struct` (src lines 33-41): the two wrapped streams `a` and
`b` (each an oracle plus its current state), the `bufio.Writer` on `b`
modelled by its pending bytes `buf`, and the `closed` flag. -/
structure Tee (σa σb : Type) where
  aO : RWC σa
  sa : σa
  bO : RWC σb
  sb : σb
  buf : List Byte
  closed : Bool

/-- `Tee.Write` (src lines 44-48):
`t.buf.Write(p); go t.buf.Flush(); return t.a.Write(p)`.
The buffered bytes plus `p` are handed to `b` with count and error
discarded (the asynchronous flush, resolved here as completing), then the
synchronous `t.a.Write(p)` supplies the returned pair. -/
def Tee.Write (t : Tee σa σb) (p : List Byte) : Tee σa σb × Nat × Err :=
  let resb := t.bO.write t.sb (t.buf ++ p)
  let resa := t.aO.write t.sa p
  ({ t with sa := resa.1, sb := resb.1, buf := [] }, resa.2.1, resa.2.2)

/-- Caller-visible outcome of a read: the contents of the caller's buffer
after the call, and the returned `(n, err)` pair.  A panic (`.error`)
carries the Go runtime message. -/
abbrev ReadView := Except String (List Byte × Nat × Err)

/-- `Tee.Read` (src lines 51-54):
`go t.b.Read(garbage[0:len(p)]); return t.a.Read(p)`.
The slice expression `garbage[0:len(p)]` is evaluated in the calling
goroutine and panics when `len(p)` exceeds the scratch buffer's capacity.
Otherwise `b`'s read lands in the scratch area with its bytes and error
discarded, and `t.a.Read(p)` fills the caller's buffer and supplies the
returned pair.  The result is the new `Tee` plus the caller's view. -/
def Tee.Read (t : Tee σa σb) (p : List Byte) :
    Except String (Tee σa σb × List Byte × Nat × Err) :=
  if garbageCap < p.length then
    Except.error "slice bounds out of range"
  else
    let resb := t.bO.read t.sb p.length
    let resa := t.aO.read t.sa p.length
    let filled := resa.2.1.take p.length
    Except.ok ({ t with sa := resa.1, sb := resb.1 },
      filled ++ p.drop filled.length, filled.length, resa.2.2)

/-- Project a `Tee.Read` result onto what the caller observes: buffer
contents and returned pair, or the panic. -/
def readView (r : Except String (Tee σa σb × List Byte × Nat × Err)) :
    ReadView :=
  match r with
  | Except.error s => Except.error s
  | Except.ok (_, bs, n, e) => Except.ok (bs, n, e)

/-- Events performed by the background goroutine spawned by the first
`Tee.Close` (src lines 69-92), in program order. -/
inductive CloseEvent where
  | drainedB
  | closedB
  | putPool
deriving DecidableEq, Repr

/-- The final drain of `b` (src lines 73-85): `io.Copy(ioutil.Discard,
t.b)` raced against `time.After(*linger)`.  The linger budget is modelled
as fuel: each unit permits one read from `b`; the drain stops when `b`
reports an error or end-of-stream (an empty read), or when the fuel is
exhausted (the linger duration elapsed). -/
def drainB (bO : RWC σb) (sb : σb) : Nat → σb
  | 0 => sb
  | Nat.succ fuel =>
    let res := bO.read sb garbageCap
    if res.2.2.isSome ∨ res.2.1.isEmpty then res.1
    else drainB bO res.1 fuel

/-- `Tee.Close` (src lines 57-95).  A second call returns `nil` at once
(src lines 59-61).  The first call sets `closed`, spawns the background
task — drain `b` bounded by the linger fuel, `t.b.Close()`, then
`teePool.Put(t)` — and synchronously returns `t.a.Close()`'s error.  The
result is the new `Tee`, the returned error, and the background task's
event trace. -/
def Tee.Close (t : Tee σa σb) (lingerFuel : Nat) :
    Tee σa σb × Err × List CloseEvent :=
  if t.closed then (t, none, [])
  else
    let sbDrained := drainB t.bO t.sb lingerFuel
    let resb := t.bO.close sbDrained
    let resa := t.aO.close t.sa
    ({ t with closed := true, sa := resa.1, sb := resb.1 },
      resa.2, [CloseEvent.drainedB, CloseEvent.closedB, CloseEvent.putPool])

/-- `NewTee` (src lines 104-111): take an instance from the pool, reset
`closed`, install the streams and a fresh writer buffer on `b`. -/
def NewTee (aO : RWC σa) (sa : σa) (bO : RWC σb) (sb : σb) : Tee σa σb :=
  { aO := aO, sa := sa, bO := bO, sb := sb, buf := [], closed := false }

/-- The stream returned by the connector: either the bare `a` stream
(`out` as dialed), or a `Tee` wrapping `a` and `b`. -/
inductive OutStream (σa σb : Type) where
  | bare (a : σa)
  | teed (t : Tee σa σb)

/-- `TeeConnectTimeout` (src lines 166-194), as a function of the two dial
outcomes.  It returns the `(out, err)` pair together with a flag recording
whether the dial to `b` was attempted at all: on dial-`a` failure the
function returns the error before reaching the `b` dial; on dial-`b`
failure the error is logged and overwritten with `nil`, and the bare `a`
stream is returned; on `b` success the streams are wrapped in a `Tee`. -/
def TeeConnectTimeout (dialA : Except String (RWC σa × σa))
    (dialB : Except String (RWC σb × σb)) :
    Option (OutStream σa σb) × Err × Bool :=
  match dialA with
  | Except.error e => (none, some e, false)
  | Except.ok a =>
    match dialB with
    | Except.ok b => (some (OutStream.teed (NewTee a.1 a.2 b.1 b.2)), none, true)
    | Except.error _ => (some (OutStream.bare a.2), none, true)

/-- Actions of `HandleTCP` and of the two copy goroutines it spawns
(src lines 113-157). -/
inductive HEvent where
  | pumpClosedConn
  | pumpClosedOut
  | timeoutLogged
  | closeConn
  | closeOut
deriving DecidableEq, Repr

/-- `HandleTCP` (src lines 113-157), as a function of how the race
resolved: `pumpTrace` is the interleaved trace of close events the two
copy goroutines performed before the `select` fired, and `finishedInTime`
tells whether the goroutines' completion channel won the race against
`time.After(*timeout)`.  On timeout the error is logged (src line 151);
either way the function then closes both ends (src lines 155-156). -/
def HandleTCP (pumpTrace : List HEvent) (finishedInTime : Bool) :
    List HEvent :=
  pumpTrace
    ++ (if finishedInTime then [] else [HEvent.timeoutLogged])
    ++ [HEvent.closeConn, HEvent.closeOut]

/-- Actions of the per-connection driver `tee` (src lines 196-219). -/
inductive ConnEvent where
  | closedClient
  | ranHandle
deriving DecidableEq, Repr

/-- `tee` (src lines 196-219), the per-connection driver: it calls
`TeeConnectTimeout`; on error it closes the client connection and returns
(src lines 203-207) without ever running the pumps; otherwise it runs
`HandleTCP` (src line 210). -/
def tee (dialA : Except String (RWC σa × σa))
    (dialB : Except String (RWC σb × σb)) : List ConnEvent :=
  match TeeConnectTimeout dialA dialB with
  | (_, some _, _) => [ConnEvent.closedClient]
  | (_, none, _) => [ConnEvent.ranHandle]

/-- One nanosecond, the unit of Go's `time.Duration`. -/
def nanosecond : Nat := 1

/-- `time.Millisecond` in nanoseconds. -/
def millisecond : Nat := 1000000 * nanosecond

/-- `time.Second` in nanoseconds. -/
def second : Nat := 1000 * millisecond

/-- The startup configuration carried by the flag variables
(src lines 17-26). -/
structure Config where
  listen : String
  targetProduction : String
  altTarget : String
  linger : Nat
  debug : Bool
  timeout : Nat
  deadline : Nat
  logThreshold : Nat
deriving DecidableEq, Repr

/-- The flag defaults exactly as declared in src lines 17-26. -/
def defaultConfig : Config :=
  { listen := ":8888"
  , targetProduction := "localhost:8080"
  , altTarget := "localhost:8081"
  , linger := 200 * millisecond
  , debug := false
  , timeout := 1 * second
  , deadline := 100 * millisecond
  , logThreshold := 500 * millisecond }

/-- The connect timeout passed to `net.DialTimeout` for the `a` stream
(src line 174): `500*time.Second`. -/
def aDialTimeout : Nat := 500 * second

/-- The scratch buffer holds exactly `64*1024` bytes, so the bound used
in `Tee.Read` is indeed the length of `garbage`. -/
theorem garbage_length : garbage.length = garbageCap := by
  rw [garbage, List.length_replicate]

/-- A trivial stream over a unit state, used to instantiate the general
theorems at concrete inputs: writes report full success, reads report
end-of-stream, close succeeds. -/
def unitRWC : RWC Unit where
  write := fun _ p => ((), p.length, none)
  read := fun _ _ => ((), [], none)
  close := fun _ => ((), none)

/-- A concrete already-closed `Tee` over trivial streams. -/
def closedUnitTee : Tee Unit Unit :=
  { aO := unitRWC, sa := (), bO := unitRWC, sb := (), buf := [], closed := true }

/-- A concrete open `Tee` over trivial streams. -/
def openUnitTee : Tee Unit Unit :=
  { aO := unitRWC, sa := (), bO := unitRWC, sb := (), buf := [], closed := false }

/-- The length of `bigBuf`: one byte more than the scratch capacity. -/
def bigLen : Nat := 64 * 1024 + 1

/-- A caller buffer one byte longer than the scratch buffer. -/
def bigBuf : List Byte := List.replicate bigLen 0

/-- `bigBuf` has `64*1024 + 1` bytes. -/
theorem bigBuf_length : bigBuf.length = 64 * 1024 + 1 := by
  rw [bigBuf, List.length_replicate, bigLen]

/-- Claim C1: for every byte slice `p`, `Tee.Write p` returns exactly the
`(count, error)` pair produced by the synchronous write of `p` to stream
`a`, and the returned pair is the same whatever the `b` side of the tee
is — no outcome of the best-effort buffered write to `b` is ever observed
by the caller. -/
theorem write_returns_a_pair (aO : RWC σa) (sa : σa)
    (bO₁ : RWC σb₁) (sb₁ : σb₁) (buf₁ : List Byte) (c₁ : Bool)
    (bO₂ : RWC σb₂) (sb₂ : σb₂) (buf₂ : List Byte) (c₂ : Bool)
    (p : List Byte) :
    (Tee.Write ⟨aO, sa, bO₁, sb₁, buf₁, c₁⟩ p).2 = (aO.write sa p).2 ∧
    (Tee.Write ⟨aO, sa, bO₁, sb₁, buf₁, c₁⟩ p).2
      = (Tee.Write ⟨aO, sa, bO₂, sb₂, buf₂, c₂⟩ p).2 :=
  ⟨rfl, rfl⟩

/-- Claim C2: the caller-visible outcome of `Tee.Read p` — the contents
of `p` afterwards, the returned pair, and even whether the call panics —
is identical for any two `b` sides of the tee, and is fully determined by
the authoritative read from `a`: in the non-panicking case the buffer
holds `a`'s bytes followed by the untouched tail of `p`, and the pair is
`a`'s pair.  No byte originating from `b` ever reaches `p` or the
caller. -/
theorem read_from_a_only (aO : RWC σa) (sa : σa)
    (bO₁ : RWC σb₁) (sb₁ : σb₁) (buf₁ : List Byte) (c₁ : Bool)
    (bO₂ : RWC σb₂) (sb₂ : σb₂) (buf₂ : List Byte) (c₂ : Bool)
    (p : List Byte) :
    readView (Tee.Read ⟨aO, sa, bO₁, sb₁, buf₁, c₁⟩ p)
      = readView (Tee.Read ⟨aO, sa, bO₂, sb₂, buf₂, c₂⟩ p) ∧
    readView (Tee.Read ⟨aO, sa, bO₁, sb₁, buf₁, c₁⟩ p)
      = (if garbageCap < p.length then
          Except.error "slice bounds out of range"
        else
          Except.ok ((aO.read sa p.length).2.1.take p.length
              ++ p.drop ((aO.read sa p.length).2.1.take p.length).length,
            ((aO.read sa p.length).2.1.take p.length).length,
            (aO.read sa p.length).2.2)) := by
  by_cases hc : garbageCap < p.length <;>
    constructor <;> simp [Tee.Read, readView, hc]

/-- Claim C3: `Tee.Close` is idempotent — on a tee that is already
closed, `Close` returns no error, leaves the whole state untouched, and
its background trace is empty: `b` is not closed again and the instance
is not returned to the pool again. -/
theorem close_idempotent (t : Tee σa σb) (fuel : Nat)
    (h : t.closed = true) :
    Tee.Close t fuel = (t, none, []) := by
  simp [Tee.Close, h]

/-- Witness for C3 at a concrete closed tee. -/
theorem close_idempotent_witness :
    closedUnitTee.closed = true ∧
    Tee.Close closedUnitTee 5 = (closedUnitTee, none, []) :=
  ⟨rfl, close_idempotent closedUnitTee 5 rfl⟩

/-- Claim C4: on the first call, `Tee.Close` returns exactly `a`'s close
result — an expression that does not mention `b` or the linger budget, so
the caller never waits on `b` — and the background task's trace is
exactly drain-`b`, close-`b`, return-to-pool, with the close of `b`
strictly before the pool return; the drained-then-closed `b` state is
recorded in the resulting tee. -/
theorem close_first_call (t : Tee σa σb) (fuel : Nat)
    (h : t.closed = false) :
    (Tee.Close t fuel).2.1 = (t.aO.close t.sa).2 ∧
    (Tee.Close t fuel).2.2
      = [CloseEvent.drainedB, CloseEvent.closedB, CloseEvent.putPool] ∧
    (Tee.Close t fuel).1.sb = (t.bO.close (drainB t.bO t.sb fuel)).1 ∧
    (Tee.Close t fuel).1.sa = (t.aO.close t.sa).1 ∧
    List.indexOf CloseEvent.closedB (Tee.Close t fuel).2.2
      < List.indexOf CloseEvent.putPool (Tee.Close t fuel).2.2 := by
  refine ⟨?_, ?_, ?_, ?_, ?_⟩ <;> simp [Tee.Close, h]

/-- Witness for C4 at a concrete open tee. -/
theorem close_first_call_witness :
    openUnitTee.closed = false ∧
    ((Tee.Close openUnitTee 3).2.1
        = (openUnitTee.aO.close openUnitTee.sa).2 ∧
      (Tee.Close openUnitTee 3).2.2
        = [CloseEvent.drainedB, CloseEvent.closedB, CloseEvent.putPool] ∧
      (Tee.Close openUnitTee 3).1.sb
        = (openUnitTee.bO.close (drainB openUnitTee.bO openUnitTee.sb 3)).1 ∧
      (Tee.Close openUnitTee 3).1.sa
        = (openUnitTee.aO.close openUnitTee.sa).1 ∧
      List.indexOf CloseEvent.closedB (Tee.Close openUnitTee 3).2.2
        < List.indexOf CloseEvent.putPool (Tee.Close openUnitTee 3).2.2) :=
  ⟨rfl, close_first_call openUnitTee 3 rfl⟩

/-- Claim C5 (refuting evaluation): the connect timeout the code passes
to `net.DialTimeout` for the `a` stream is `500*time.Second`, which is
exactly 500 times the default per-connection timeout — not a small
multiple of it. -/
theorem aDialTimeout_is_500x_default_timeout :
    aDialTimeout = 500 * defaultConfig.timeout := rfl

/-- Claim C6: when the dial to `a` succeeds and the dial to `b` fails or
times out, `TeeConnectTimeout` returns the bare `a` stream with a `nil`
error (having attempted `b`), and the per-connection driver proceeds to
run the pumps as a plain `a`-only relay — the `b` failure is never
surfaced. -/
theorem connect_b_failure_returns_bare_a (aO : RWC σa) (sa : σa)
    (e : String) :
    TeeConnectTimeout (Except.ok (aO, sa))
        (Except.error e : Except String (RWC σb × σb))
      = (some (OutStream.bare sa), none, true) ∧
    tee (Except.ok (aO, sa))
        (Except.error e : Except String (RWC σb × σb))
      = [ConnEvent.ranHandle] :=
  ⟨rfl, rfl⟩

/-- Claim C7: when the dial to `a` fails, `TeeConnectTimeout` returns
that error with no stream and without attempting `b`, and the
per-connection driver then only closes the client connection — the pumps
never run, so no bytes are exchanged. -/
theorem connect_a_failure_aborts (e : String)
    (dialB : Except String (RWC σb × σb)) :
    TeeConnectTimeout (Except.error e : Except String (RWC σa × σa)) dialB
      = (none, some e, false) ∧
    tee (Except.error e : Except String (RWC σa × σa)) dialB
      = [ConnEvent.closedClient] ∧
    ConnEvent.ranHandle
      ∉ tee (Except.error e : Except String (RWC σa × σa)) dialB := by
  refine ⟨rfl, rfl, ?_⟩
  simp [tee, TeeConnectTimeout]

/-- Claim C8: every execution of `HandleTCP` — whatever the pumps did and
whether or not the timeout fired first — ends by closing the client
connection and the out stream, so both ends are closed before it returns;
and when the timeout fires first the timeout is logged. -/
theorem handle_closes_both_ends (pumpTrace : List HEvent)
    (finishedInTime : Bool) :
    (∃ pre, HandleTCP pumpTrace finishedInTime
      = pre ++ [HEvent.closeConn, HEvent.closeOut]) ∧
    HEvent.closeConn ∈ HandleTCP pumpTrace finishedInTime ∧
    HEvent.closeOut ∈ HandleTCP pumpTrace finishedInTime ∧
    HEvent.timeoutLogged ∈ HandleTCP pumpTrace false := by
  refine ⟨⟨pumpTrace ++ (if finishedInTime then [] else [HEvent.timeoutLogged]),
    ?_⟩, ?_, ?_, ?_⟩ <;> simp [HandleTCP]

/-- Claim C9: a caller buffer longer than the `64*1024`-byte scratch
buffer makes `Tee.Read` panic — `garbage[0:len(p)]` is evaluated in the
calling goroutine and is out of bounds — so `Read` is only safe when
`len(p) ≤ 64*1024`. -/
theorem read_oob_panics (t : Tee σa σb) (p : List Byte)
    (h : 64 * 1024 < p.length) :
    Tee.Read t p = Except.error "slice bounds out of range" := by
  rw [Tee.Read, if_pos]
  exact h

/-- Witness for C9: a buffer of `64*1024 + 1` bytes panics. -/
theorem read_oob_panics_witness :
    64 * 1024 < bigBuf.length ∧
    Tee.Read openUnitTee bigBuf
      = Except.error "slice bounds out of range" :=
  ⟨by rw [bigBuf_length]; omega,
    read_oob_panics openUnitTee bigBuf (by rw [bigBuf_length]; omega)⟩

/-- Claim C10: the startup configuration defaults are exactly listen
`":8888"`, `a` `"localhost:8080"`, `b` `"localhost:8081"`, linger 200 ms,
per-connection timeout 1 s, `b`-dial deadline 100 ms, log threshold
500 ms, and debug off (durations checked in nanoseconds). -/
theorem default_config_exact :
    defaultConfig.listen = ":8888" ∧
    defaultConfig.targetProduction = "localhost:8080" ∧
    defaultConfig.altTarget = "localhost:8081" ∧
    defaultConfig.linger = 200000000 ∧
    defaultConfig.timeout = 1000000000 ∧
    defaultConfig.deadline = 100000000 ∧
    defaultConfig.logThreshold = 500000000 ∧
    defaultConfig.debug = false := by
  refine ⟨rfl, rfl, rfl, ?_, ?_, ?_, ?_, rfl⟩ <;> decide

end Teeproxy
